import Mathlib

/-!
# Verification of the CSS selector builder (`src/task/08-objects-tasks.js`)

A shallow embedding of the `Selector` / `CombinedSelector` classes and the
`cssSelectorBuilder` facade.  JavaScript methods mutate the receiver in place
and may throw; we model each part-append method as a function
`Selector → String → Option SelError × Selector` returning the error thrown
(if any) together with the state of the receiver when the method returns or
throws.  Since every `throw` in the source happens before any field mutation,
the returned state on the error path is exactly the state at the point of the
throw.
-/

/-- The six selector part kinds, in source order.  The JS code identifies them
by the strings `'element'`, `'id'`, `'class'`, `'attr'`, `'pseudoClass'`,
`'pseudoElement'`. -/
inductive PartKind where
  | element
  | id
  | «class»
  | attr
  | pseudoClass
  | pseudoElement
deriving DecidableEq, Repr

/-- The two exception kinds thrown by `checkOrder`: the spec names them
`OrderViolation` (message "Selector parts should be arranged in the following
order: ...") and `DuplicatePartViolation` (message "Element, id and
pseudo-element should not occur more then one time inside the selector"). -/
inductive SelError where
  | OrderViolation
  | DuplicatePartViolation
deriving DecidableEq, Repr

/-- The `this.parts` record of a `Selector`: `element`, `id`, `pseudoElement`
hold already-rendered strings (initially `''`); `class`, `attr`, `pseudoClass`
hold arrays of already-rendered strings (initially `[]`). -/
structure Parts where
  element : String
  id : String
  «class» : List String
  attr : List String
  pseudoClass : List String
  pseudoElement : String
deriving DecidableEq, Repr

/-- A `Selector` object: its `parts` record and the `this.order` history of
appended part kinds. -/
structure Selector where
  parts : Parts
  order : List PartKind
deriving DecidableEq, Repr

/-- `new Selector()`: all part slots empty, empty append history. -/
def Selector.new : Selector :=
  { parts := { element := "", id := "", «class» := [], attr := [],
               pseudoClass := [], pseudoElement := "" },
    order := [] }

/-- The canonical array `['element', 'id', 'class', 'attr', 'pseudoClass',
'pseudoElement']` used by `checkOrder` for rank lookup. -/
def partOrder : List PartKind :=
  [.element, .id, .«class», .attr, .pseudoClass, .pseudoElement]

/-- `order.indexOf(part)` on the canonical array, as an integer (the JS
comparison is against `-1`, so we work in `Int`). -/
def rank (part : PartKind) : Int :=
  (partOrder.indexOf part : Int)

/-- `this.order.length ? order.indexOf(this.order[this.order.length - 1]) : -1`:
the rank of the most recently appended part kind, or `-1` for an empty
history. -/
def Selector.lastIndex (s : Selector) : Int :=
  match s.order.getLast? with
  | some last => rank last
  | none => -1

/-- The array `['element', 'id', 'pseudoElement']` of single-shot part kinds
used by the duplicate check. -/
def singlePartKinds : List PartKind := [.element, .id, .pseudoElement]

/-- `Selector.prototype.checkOrder`: throws `OrderViolation` when the appended
part's rank is below the last appended rank, then throws
`DuplicatePartViolation` when a single-shot kind already occurs in the
history, and otherwise pushes the kind onto `this.order`. -/
def Selector.checkOrder (s : Selector) (part : PartKind) :
    Option SelError × Selector :=
  if rank part < s.lastIndex then
    (some .OrderViolation, s)
  else if part ∈ singlePartKinds ∧ part ∈ s.order then
    (some .DuplicatePartViolation, s)
  else
    (none, { s with order := s.order ++ [part] })

/-- `Selector.prototype.element`: `checkOrder('element')` then
`this.parts.element = value`. -/
def Selector.element (s : Selector) (value : String) :
    Option SelError × Selector :=
  match s.checkOrder .element with
  | (some e, s1) => (some e, s1)
  | (none, s1) => (none, { s1 with parts := { s1.parts with element := value } })

/-- `Selector.prototype.id`: `checkOrder('id')` then
`this.parts.id = '#' + value`. -/
def Selector.id (s : Selector) (value : String) :
    Option SelError × Selector :=
  match s.checkOrder .id with
  | (some e, s1) => (some e, s1)
  | (none, s1) => (none, { s1 with parts := { s1.parts with id := "#" ++ value } })

/-- `Selector.prototype.class`: `checkOrder('class')` then
`this.parts.class.push('.' + value)`. -/
def Selector.«class» (s : Selector) (value : String) :
    Option SelError × Selector :=
  match s.checkOrder .«class» with
  | (some e, s1) => (some e, s1)
  | (none, s1) =>
      (none, { s1 with parts :=
        { s1.parts with «class» := s1.parts.«class» ++ ["." ++ value] } })

/-- `Selector.prototype.attr`: `checkOrder('attr')` then
`this.parts.attr.push('[' + value + ']')`. -/
def Selector.attr (s : Selector) (value : String) :
    Option SelError × Selector :=
  match s.checkOrder .attr with
  | (some e, s1) => (some e, s1)
  | (none, s1) =>
      (none, { s1 with parts :=
        { s1.parts with attr := s1.parts.attr ++ ["[" ++ value ++ "]"] } })

/-- `Selector.prototype.pseudoClass`: `checkOrder('pseudoClass')` then
`this.parts.pseudoClass.push(':' + value)`. -/
def Selector.pseudoClass (s : Selector) (value : String) :
    Option SelError × Selector :=
  match s.checkOrder .pseudoClass with
  | (some e, s1) => (some e, s1)
  | (none, s1) =>
      (none, { s1 with parts :=
        { s1.parts with pseudoClass := s1.parts.pseudoClass ++ [":" ++ value] } })

/-- `Selector.prototype.pseudoElement`: `checkOrder('pseudoElement')` then
`this.parts.pseudoElement = '::' + value`. -/
def Selector.pseudoElement (s : Selector) (value : String) :
    Option SelError × Selector :=
  match s.checkOrder .pseudoElement with
  | (some e, s1) => (some e, s1)
  | (none, s1) =>
      (none, { s1 with parts :=
        { s1.parts with pseudoElement := "::" ++ value } })

/-- `Selector.prototype.stringify`: the six part groups concatenated with no
separators (`join('')` on the array-valued groups). -/
def Selector.stringify (s : Selector) : String :=
  s.parts.element ++
    s.parts.id ++
    String.join s.parts.«class» ++
    String.join s.parts.attr ++
    String.join s.parts.pseudoClass ++
    s.parts.pseudoElement

/-- Dispatch of the six part-append methods by part kind. -/
def Selector.append (s : Selector) (k : PartKind) (v : String) :
    Option SelError × Selector :=
  match k with
  | .element => s.element v
  | .id => s.id v
  | .«class» => s.«class» v
  | .attr => s.attr v
  | .pseudoClass => s.pseudoClass v
  | .pseudoElement => s.pseudoElement v

/-- The pure state update a successful part-append performs: store/append the
rendered value and push the kind onto the history. -/
def applyPart (s : Selector) (k : PartKind) (v : String) : Selector :=
  match k with
  | .element =>
      { s with parts := { s.parts with element := v },
               order := s.order ++ [.element] }
  | .id =>
      { s with parts := { s.parts with id := "#" ++ v },
               order := s.order ++ [.id] }
  | .«class» =>
      { s with parts := { s.parts with «class» := s.parts.«class» ++ ["." ++ v] },
               order := s.order ++ [.«class»] }
  | .attr =>
      { s with parts := { s.parts with attr := s.parts.attr ++ ["[" ++ v ++ "]"] },
               order := s.order ++ [.attr] }
  | .pseudoClass =>
      { s with parts := { s.parts with pseudoClass := s.parts.pseudoClass ++ [":" ++ v] },
               order := s.order ++ [.pseudoClass] }
  | .pseudoElement =>
      { s with parts := { s.parts with pseudoElement := "::" ++ v },
               order := s.order ++ [.pseudoElement] }

/-- One part-append call: a kind together with the string value passed. -/
abbrev Call := PartKind × String

/-- Run a sequence of part-append calls, stopping at the first thrown error
(the JS chain `sel.element(a).id(b)...` aborts at the first throw). -/
def runChecked (s : Selector) : List Call → Option SelError × Selector
  | [] => (none, s)
  | c :: cs =>
      match s.append c.1 c.2 with
      | (none, s1) => runChecked s1 cs
      | (some e, s1) => (some e, s1)

/-- Run a sequence of part-append calls where the caller catches every thrown
error and continues the chain on the same object. -/
def runCaught (s : Selector) : List Call → Selector
  | [] => s
  | c :: cs => runCaught (s.append c.1 c.2).2 cs

/-- The kinds of a call sequence, in order. -/
def callKinds (calls : List Call) : List PartKind := calls.map Prod.fst

/-- The values passed for one part kind, in call order. -/
def valuesOf (k : PartKind) (calls : List Call) : List String :=
  (calls.filter (fun c => c.1 = k)).map Prod.snd

/-- A selector-like value: a `Selector` or a `CombinedSelector` (whose two
operands are themselves selector-like, matching the JS duck typing on
`stringify`).  A `CombinedSelector` stores `selector1`, `combinator`,
`selector2` as given. -/
inductive Selectable where
  | sel (s : Selector)
  | comb (selector1 : Selectable) (combinator : String) (selector2 : Selectable)
deriving DecidableEq, Repr

/-- `CombinedSelector.prototype.stringify`:
`` `${selector1.stringify()} ${combinator} ${selector2.stringify()}` ``,
recursing through the operands; a plain `Selector` renders as itself. -/
def Selectable.stringify : Selectable → String
  | .sel s => s.stringify
  | .comb s1 c s2 => s1.stringify ++ " " ++ c ++ " " ++ s2.stringify

namespace cssSelectorBuilder

/-- `cssSelectorBuilder.element`: `new Selector().element(value)`. -/
def element (value : String) : Option SelError × Selector :=
  Selector.new.element value

/-- `cssSelectorBuilder.id`: `new Selector().id(value)`. -/
def id (value : String) : Option SelError × Selector :=
  Selector.new.id value

/-- `cssSelectorBuilder.class`: `new Selector().class(value)`. -/
def «class» (value : String) : Option SelError × Selector :=
  Selector.new.«class» value

/-- `cssSelectorBuilder.attr`: `new Selector().attr(value)`. -/
def attr (value : String) : Option SelError × Selector :=
  Selector.new.attr value

/-- `cssSelectorBuilder.pseudoClass`: `new Selector().pseudoClass(value)`. -/
def pseudoClass (value : String) : Option SelError × Selector :=
  Selector.new.pseudoClass value

/-- `cssSelectorBuilder.pseudoElement`: `new Selector().pseudoElement(value)`. -/
def pseudoElement (value : String) : Option SelError × Selector :=
  Selector.new.pseudoElement value

/-- `cssSelectorBuilder.combine`:
`new CombinedSelector(selector1, combinator, selector2)`. -/
def combine (selector1 : Selectable) (combinator : String)
    (selector2 : Selectable) : Selectable :=
  .comb selector1 combinator selector2

end cssSelectorBuilder

/-! ## Basic lemmas about `checkOrder` and the part-append methods -/

@[simp] theorem rank_element : rank .element = 0 := rfl
@[simp] theorem rank_id : rank .id = 1 := rfl
@[simp] theorem rank_class : rank .«class» = 2 := rfl
@[simp] theorem rank_attr : rank .attr = 3 := rfl
@[simp] theorem rank_pseudoClass : rank .pseudoClass = 4 := rfl
@[simp] theorem rank_pseudoElement : rank .pseudoElement = 5 := rfl

theorem rank_nonneg (k : PartKind) : 0 ≤ rank k := by
  cases k <;> decide

/-- The error component of a part-append call is exactly the error component
of its `checkOrder` call. -/
theorem Selector.append_fst (s : Selector) (k : PartKind) (v : String) :
    (s.append k v).1 = (s.checkOrder k).1 := by
  cases k <;>
    simp only [Selector.append, Selector.element, Selector.id, Selector.«class»,
      Selector.attr, Selector.pseudoClass, Selector.pseudoElement] <;>
    split <;> simp_all

/-- `checkOrder` throws before it pushes onto `this.order`: a failing call
leaves the selector untouched. -/
theorem Selector.checkOrder_fail (s : Selector) (k : PartKind) (e : SelError)
    (h : (s.checkOrder k).1 = some e) : (s.checkOrder k).2 = s := by
  unfold Selector.checkOrder at *
  split_ifs at h ⊢ <;> simp_all

/-- Every `throw` in a part-append method happens before any field mutation:
a failing call leaves the selector untouched. -/
theorem Selector.append_fail (s : Selector) (k : PartKind) (v : String)
    (e : SelError) (h : (s.append k v).1 = some e) : (s.append k v).2 = s := by
  have hc : (s.checkOrder k).1 = some e := by rw [← Selector.append_fst s k v]; exact h
  have hs := Selector.checkOrder_fail s k e hc
  cases k <;>
    simp only [Selector.append, Selector.element, Selector.id, Selector.«class»,
      Selector.attr, Selector.pseudoClass, Selector.pseudoElement] at h ⊢ <;>
    split at h <;> simp_all

/-- When both checks pass, a part-append call returns no error and performs
exactly the `applyPart` state update. -/
theorem Selector.append_ok (s : Selector) (k : PartKind) (v : String)
    (h1 : ¬ rank k < s.lastIndex)
    (h2 : ¬ (k ∈ singlePartKinds ∧ k ∈ s.order)) :
    s.append k v = (none, applyPart s k v) := by
  have hc : s.checkOrder k = (none, { s with order := s.order ++ [k] }) := by
    simp [Selector.checkOrder, h1, h2]
  cases k <;>
    simp only [Selector.append, Selector.element, Selector.id, Selector.«class»,
      Selector.attr, Selector.pseudoClass, Selector.pseudoElement, hc, applyPart]

@[simp] theorem applyPart_order (s : Selector) (k : PartKind) (v : String) :
    (applyPart s k v).order = s.order ++ [k] := by
  cases k <;> rfl

/-! ## Running whole call sequences -/

/-- The unchecked fold of `applyPart` over a call sequence. -/
def applyAll (s : Selector) (calls : List Call) : Selector :=
  calls.foldl (fun t c => applyPart t c.1 c.2) s

/-- A call sequence whose kinds never go backward in rank and whose
single-shot kinds are fresh for the current history runs without error and
performs exactly the fold of the state updates. -/
theorem runChecked_ok (calls : List Call) : ∀ (s : Selector),
    List.Chain' (fun a b => rank a ≤ rank b) (s.order ++ callKinds calls) →
    (∀ k ∈ singlePartKinds, (s.order ++ callKinds calls).count k ≤ 1) →
    runChecked s calls = (none, applyAll s calls) := by
  induction calls with
  | nil => intro s _ _; rfl
  | cons c cs ih =>
    intro s hchain hcount
    have hkinds : callKinds (c :: cs) = c.1 :: callKinds cs := rfl
    rw [hkinds] at hchain hcount
    have h1 : ¬ rank c.1 < s.lastIndex := by
      rcases hl : s.order.getLast? with _ | last
      · have : s.lastIndex = -1 := by simp [Selector.lastIndex, hl]
        rw [this]
        exact not_lt.mpr (le_trans (by norm_num) (rank_nonneg c.1))
      · have hle : rank last ≤ rank c.1 := by
          have := (List.chain'_append.mp hchain).2.2 last (by rw [hl]; rfl) c.1 rfl
          exact this
        have : s.lastIndex = rank last := by simp [Selector.lastIndex, hl]
        rw [this]
        exact not_lt.mpr hle
    have h2 : ¬ (c.1 ∈ singlePartKinds ∧ c.1 ∈ s.order) := by
      rintro ⟨hsingle, hmem⟩
      have hcnt := hcount c.1 hsingle
      rw [List.count_append, List.count_cons_self] at hcnt
      have : 0 < s.order.count c.1 := List.count_pos_iff.mpr hmem
      omega
    rw [runChecked, Selector.append_ok s c.1 c.2 h1 h2]
    have horder : (applyPart s c.1 c.2).order ++ callKinds cs
        = s.order ++ (c.1 :: callKinds cs) := by
      rw [applyPart_order, List.append_assoc, List.singleton_append]
    exact ih (applyPart s c.1 c.2) (by rw [horder]; exact hchain)
      (fun k hk => by rw [horder]; exact hcount k hk)

/-! ## How each `parts` field evolves along a call sequence -/

@[simp] theorem applyAll_nil (s : Selector) : applyAll s [] = s := rfl

theorem applyAll_cons (s : Selector) (c : Call) (cs : List Call) :
    applyAll s (c :: cs) = applyAll (applyPart s c.1 c.2) cs := rfl

theorem applyAll_element (calls : List Call) : ∀ (s : Selector),
    (applyAll s calls).parts.element
      = (valuesOf .element calls).foldl (fun _ v => v) s.parts.element := by
  induction calls with
  | nil => intro s; rfl
  | cons c cs ih =>
    intro s
    obtain ⟨k, v⟩ := c
    rw [applyAll_cons, ih]
    cases k <;> simp [applyPart, valuesOf, List.filter_cons]

theorem applyAll_id (calls : List Call) : ∀ (s : Selector),
    (applyAll s calls).parts.id
      = (valuesOf .id calls).foldl (fun _ v => "#" ++ v) s.parts.id := by
  induction calls with
  | nil => intro s; rfl
  | cons c cs ih =>
    intro s
    obtain ⟨k, v⟩ := c
    rw [applyAll_cons, ih]
    cases k <;> simp [applyPart, valuesOf, List.filter_cons]

theorem applyAll_pseudoElement (calls : List Call) : ∀ (s : Selector),
    (applyAll s calls).parts.pseudoElement
      = (valuesOf .pseudoElement calls).foldl (fun _ v => "::" ++ v)
          s.parts.pseudoElement := by
  induction calls with
  | nil => intro s; rfl
  | cons c cs ih =>
    intro s
    obtain ⟨k, v⟩ := c
    rw [applyAll_cons, ih]
    cases k <;> simp [applyPart, valuesOf, List.filter_cons]

theorem applyAll_class (calls : List Call) : ∀ (s : Selector),
    (applyAll s calls).parts.«class»
      = s.parts.«class» ++ (valuesOf .«class» calls).map (fun v => "." ++ v) := by
  induction calls with
  | nil => intro s; simp [valuesOf]
  | cons c cs ih =>
    intro s
    obtain ⟨k, v⟩ := c
    rw [applyAll_cons, ih]
    cases k <;> simp [applyPart, valuesOf, List.filter_cons, List.append_assoc]

theorem applyAll_attr (calls : List Call) : ∀ (s : Selector),
    (applyAll s calls).parts.attr
      = s.parts.attr ++ (valuesOf .attr calls).map (fun v => "[" ++ v ++ "]") := by
  induction calls with
  | nil => intro s; simp [valuesOf]
  | cons c cs ih =>
    intro s
    obtain ⟨k, v⟩ := c
    rw [applyAll_cons, ih]
    cases k <;> simp [applyPart, valuesOf, List.filter_cons, List.append_assoc]

theorem applyAll_pseudoClass (calls : List Call) : ∀ (s : Selector),
    (applyAll s calls).parts.pseudoClass
      = s.parts.pseudoClass
          ++ (valuesOf .pseudoClass calls).map (fun v => ":" ++ v) := by
  induction calls with
  | nil => intro s; simp [valuesOf]
  | cons c cs ih =>
    intro s
    obtain ⟨k, v⟩ := c
    rw [applyAll_cons, ih]
    cases k <;> simp [applyPart, valuesOf, List.filter_cons, List.append_assoc]

/-- The number of values recorded for a kind is its number of occurrences
among the call kinds. -/
theorem length_valuesOf (k : PartKind) (calls : List Call) :
    (valuesOf k calls).length = (callKinds calls).count k := by
  induction calls with
  | nil => rfl
  | cons c cs ih =>
    by_cases h : c.1 = k <;>
      simp only [valuesOf, callKinds, List.filter_cons, List.count_cons,
        List.map_cons, List.length_map, h] at ih ⊢ <;>
      simp [h, ih]

/-- A list of length at most one is empty or a singleton. -/
theorem short_list {α : Type} (vs : List α) (h : vs.length ≤ 1) :
    vs = [] ∨ ∃ v, vs = [v] := by
  match vs with
  | [] => exact Or.inl rfl
  | [v] => exact Or.inr ⟨v, rfl⟩
  | a :: b :: t => simp at h

/-! ## Claim theorems -/

/-- C1: For every compound selector built by a sequence of part-append calls
that respects the canonical rank order and the single-shot limits, the run
raises no error and `stringify()` returns the concatenation, with no
separators between groups, of: the element value, then `#` + id if present,
then each class as `.` + value in append order, then each attribute as
`[` + value + `]` in append order, then each pseudo-class as `:` + value in
append order, then `::` + pseudoElement if present. -/
theorem stringify_of_canonical_sequence (calls : List Call)
    (hord : List.Chain' (fun a b => rank a ≤ rank b) (callKinds calls))
    (hlim : ∀ k ∈ singlePartKinds, (callKinds calls).count k ≤ 1) :
    (runChecked Selector.new calls).1 = none ∧
    ((runChecked Selector.new calls).2).stringify
      = (valuesOf .element calls).headD ""
        ++ ((valuesOf .id calls).map (fun v => "#" ++ v)).headD ""
        ++ String.join ((valuesOf .«class» calls).map (fun v => "." ++ v))
        ++ String.join ((valuesOf .attr calls).map (fun v => "[" ++ v ++ "]"))
        ++ String.join ((valuesOf .pseudoClass calls).map (fun v => ":" ++ v))
        ++ ((valuesOf .pseudoElement calls).map (fun v => "::" ++ v)).headD "" := by
  have hrun : runChecked Selector.new calls = (none, applyAll Selector.new calls) :=
    runChecked_ok calls Selector.new (by simpa [Selector.new] using hord)
      (fun k hk => by simpa [Selector.new] using hlim k hk)
  rw [hrun]
  refine ⟨rfl, ?_⟩
  have hE : (valuesOf .element calls).length ≤ 1 := by
    rw [length_valuesOf]; exact hlim .element (by decide)
  have hI : (valuesOf .id calls).length ≤ 1 := by
    rw [length_valuesOf]; exact hlim .id (by decide)
  have hP : (valuesOf .pseudoElement calls).length ≤ 1 := by
    rw [length_valuesOf]; exact hlim .pseudoElement (by decide)
  unfold Selector.stringify
  rw [applyAll_element, applyAll_id, applyAll_class, applyAll_attr,
      applyAll_pseudoClass, applyAll_pseudoElement]
  rcases short_list _ hE with he | ⟨ve, he⟩ <;>
    rcases short_list _ hI with hi | ⟨vi, hi⟩ <;>
      rcases short_list _ hP with hp | ⟨vp, hp⟩ <;>
        simp [he, hi, hp, Selector.new]

/-- Witness for C1 at the concrete sequence
`element('a'); class('x'); class('y'); attr('q'); pseudoElement('after')`. -/
theorem stringify_of_canonical_sequence_witness :
    (List.Chain' (fun a b => rank a ≤ rank b)
        (callKinds [(.element, "a"), (.«class», "x"), (.«class», "y"),
          (.attr, "q"), (.pseudoElement, "after")]) ∧
      ∀ k ∈ singlePartKinds,
        (callKinds [(.element, "a"), (.«class», "x"), (.«class», "y"),
          (.attr, "q"), (.pseudoElement, "after")]).count k ≤ 1) ∧
    ((runChecked Selector.new [(.element, "a"), (.«class», "x"), (.«class», "y"),
        (.attr, "q"), (.pseudoElement, "after")]).1 = none ∧
      ((runChecked Selector.new [(.element, "a"), (.«class», "x"), (.«class», "y"),
          (.attr, "q"), (.pseudoElement, "after")]).2).stringify
        = (valuesOf .element [(.element, "a"), (.«class», "x"), (.«class», "y"),
              (.attr, "q"), (.pseudoElement, "after")]).headD ""
          ++ ((valuesOf .id [(.element, "a"), (.«class», "x"), (.«class», "y"),
                (.attr, "q"), (.pseudoElement, "after")]).map
                  (fun v => "#" ++ v)).headD ""
          ++ String.join ((valuesOf .«class» [(.element, "a"), (.«class», "x"),
                (.«class», "y"), (.attr, "q"), (.pseudoElement, "after")]).map
                  (fun v => "." ++ v))
          ++ String.join ((valuesOf .attr [(.element, "a"), (.«class», "x"),
                (.«class», "y"), (.attr, "q"), (.pseudoElement, "after")]).map
                  (fun v => "[" ++ v ++ "]"))
          ++ String.join ((valuesOf .pseudoClass [(.element, "a"), (.«class», "x"),
                (.«class», "y"), (.attr, "q"), (.pseudoElement, "after")]).map
                  (fun v => ":" ++ v))
          ++ ((valuesOf .pseudoElement [(.element, "a"), (.«class», "x"),
                (.«class», "y"), (.attr, "q"), (.pseudoElement, "after")]).map
                  (fun v => "::" ++ v)).headD "") :=
  ⟨⟨by simp [callKinds, List.chain'_cons], by decide⟩,
    stringify_of_canonical_sequence
      [(.element, "a"), (.«class», "x"), (.«class», "y"),
        (.attr, "q"), (.pseudoElement, "after")] (by simp [callKinds, List.chain'_cons])
      (by decide)⟩

/-- C2: a part-append call fails with `OrderViolation` exactly when the rank
of the appended kind is strictly below the rank of the most recently appended
kind (with an empty history ranking before all ranks); equal or higher rank
passes the order check. -/
theorem order_violation_iff_rank_decreases (s : Selector) (k : PartKind)
    (v : String) :
    (s.append k v).1 = some SelError.OrderViolation ↔ rank k < s.lastIndex := by
  rw [Selector.append_fst]
  unfold Selector.checkOrder
  split_ifs with h1 h2 <;> simp [h1]

/-- C3, counterexample: after `element('div'); id('main'); class('x')`, a
second `element('span')` fails with `OrderViolation` (the rank check fires
first), not with `DuplicatePartViolation` as the claim states. -/
theorem duplicate_element_after_class_counterexample :
    ((((cssSelectorBuilder.element "div").2.id "main").2.«class» "x").2.element
        "span").1 = some SelError.OrderViolation ∧
    ((((cssSelectorBuilder.element "div").2.id "main").2.«class» "x").2.element
        "span").1 ≠ some SelError.DuplicatePartViolation := by
  exact ⟨by decide, by decide⟩

/-- C3, amended: a second append of a single-shot kind (element, id,
pseudo-element) always fails, but with `DuplicatePartViolation` only when the
order check passes, i.e. when its rank is not below the last appended rank;
when its rank is strictly below, it fails with `OrderViolation` instead. -/
theorem second_single_shot_append_fails (s : Selector) (k : PartKind)
    (v : String) (h1 : k ∈ singlePartKinds) (h2 : k ∈ s.order) :
    (s.append k v).1
      = some (if rank k < s.lastIndex then SelError.OrderViolation
              else SelError.DuplicatePartViolation) := by
  rw [Selector.append_fst]
  unfold Selector.checkOrder
  split_ifs with h h' <;> simp_all

/-- Witness for the amended C3: re-appending `element` right after `element`
fails with `DuplicatePartViolation`. -/
theorem second_single_shot_append_fails_witness :
    (PartKind.element ∈ singlePartKinds ∧
      PartKind.element ∈ ((cssSelectorBuilder.element "a").2).order) ∧
    (((cssSelectorBuilder.element "a").2).append .element "z").1
      = some (if rank .element < ((cssSelectorBuilder.element "a").2).lastIndex
              then SelError.OrderViolation else SelError.DuplicatePartViolation) :=
  ⟨⟨by decide, by decide⟩,
    second_single_shot_append_fails _ .element "z" (by decide) (by decide)⟩

/-- C4: `combine(a, op, b).stringify()` is
`a.stringify() + " " + op + " " + b.stringify()` for all selectable operands
and any combinator string, and combined selectors nest. -/
theorem combine_stringify_concat (a b : Selectable) (op : String) :
    (cssSelectorBuilder.combine a op b).stringify
      = a.stringify ++ " " ++ op ++ " " ++ b.stringify ∧
    ∀ (c : Selectable) (op2 : String),
      (cssSelectorBuilder.combine (cssSelectorBuilder.combine a op b) op2
          c).stringify
        = a.stringify ++ " " ++ op ++ " " ++ b.stringify ++ " " ++ op2 ++ " "
            ++ c.stringify :=
  ⟨rfl, fun _ _ => rfl⟩

/-- C5: both error kinds are values of the part-append call itself (never of
`stringify`, which is total), and a failing append leaves the selector's
state — and hence its rendering — unchanged. -/
theorem append_error_atomic (s : Selector) (k : PartKind) (v : String)
    (e : SelError) (h : (s.append k v).1 = some e) :
    (s.append k v).2 = s ∧ ((s.append k v).2).stringify = s.stringify := by
  have h2 := Selector.append_fail s k v e h
  exact ⟨h2, by rw [h2]⟩

/-- Witness for C5: `element('a'); id('b')` then `element('c')` fails and
leaves the selector unchanged. -/
theorem append_error_atomic_witness :
    ((((cssSelectorBuilder.element "a").2.id "b").2).append .element "c").1
        = some SelError.OrderViolation ∧
    (((((cssSelectorBuilder.element "a").2.id "b").2).append .element "c").2
        = ((cssSelectorBuilder.element "a").2.id "b").2 ∧
      (((((cssSelectorBuilder.element "a").2.id "b").2).append .element
          "c").2).stringify
        = (((cssSelectorBuilder.element "a").2.id "b").2).stringify) :=
  ⟨by decide,
    append_error_atomic _ .element "c" SelError.OrderViolation (by decide)⟩

/-- C6: `combine` validates nothing: for every string `op` it succeeds,
stores the three constructor arguments unchanged, and renders `op` verbatim
between the rendered operands. -/
theorem combine_accepts_any_combinator (a b : Selectable) (op : String) :
    cssSelectorBuilder.combine a op b = Selectable.comb a op b ∧
    (cssSelectorBuilder.combine a op b).stringify
      = a.stringify ++ " " ++ op ++ " " ++ b.stringify :=
  ⟨rfl, rfl⟩

/-- C7, counterexample: a compound selector that has been rendered (rendering
is pure, so its state is unchanged by `stringify()`) and handed to a
`CombinedSelector` still accepts a part-append that changes its state and its
rendering — and a `CombinedSelector` built over the updated state renders
differently, which in the source (where operands are stored by reference and
appends mutate in place) is what the original combined selector would print. -/
theorem selector_mutable_after_render_counterexample :
    ((cssSelectorBuilder.element "div").2).stringify = "div" ∧
    (((cssSelectorBuilder.element "div").2).«class» "x").1 = none ∧
    (((cssSelectorBuilder.element "div").2).«class» "x").2
      ≠ (cssSelectorBuilder.element "div").2 ∧
    ((((cssSelectorBuilder.element "div").2).«class» "x").2).stringify
      ≠ ((cssSelectorBuilder.element "div").2).stringify ∧
    (cssSelectorBuilder.combine
        (.sel (((cssSelectorBuilder.element "div").2).«class» "x").2) "+"
        (.sel (cssSelectorBuilder.element "p").2)).stringify
      ≠ (cssSelectorBuilder.combine
          (.sel (cssSelectorBuilder.element "div").2) "+"
          (.sel (cssSelectorBuilder.element "p").2)).stringify :=
  ⟨by decide, by decide, by decide, by decide, by decide⟩

/-- C7, amended: the code never freezes a compound selector: whether or not
it has been rendered or handed to a `CombinedSelector`, any part-append that
passes the order and duplicate checks succeeds and updates its state (its
append history grows). -/
theorem selector_not_frozen (s : Selector) (k : PartKind) (v : String)
    (h1 : ¬ rank k < s.lastIndex)
    (h2 : ¬ (k ∈ singlePartKinds ∧ k ∈ s.order)) :
    (s.append k v).1 = none ∧ (s.append k v).2 = applyPart s k v ∧
    ((s.append k v).2).order = s.order ++ [k] := by
  have h := Selector.append_ok s k v h1 h2
  rw [h]
  exact ⟨rfl, rfl, applyPart_order s k v⟩

/-- Witness for the amended C7: a class append on the already-rendered
`element('div')` selector succeeds and grows its history. -/
theorem selector_not_frozen_witness :
    (¬ rank .«class» < ((cssSelectorBuilder.element "div").2).lastIndex ∧
      ¬ (PartKind.«class» ∈ singlePartKinds ∧
          PartKind.«class» ∈ ((cssSelectorBuilder.element "div").2).order)) ∧
    ((((cssSelectorBuilder.element "div").2).append .«class» "x").1 = none ∧
      (((cssSelectorBuilder.element "div").2).append .«class» "x").2
        = applyPart ((cssSelectorBuilder.element "div").2) .«class» "x" ∧
      ((((cssSelectorBuilder.element "div").2).append .«class» "x").2).order
        = ((cssSelectorBuilder.element "div").2).order ++ [.«class»]) :=
  ⟨⟨by decide, by decide⟩,
    selector_not_frozen _ .«class» "x" (by decide) (by decide)⟩

/-- C8: each factory entry point is definitionally `new Selector()` followed
by the matching part-append, and a first append on an empty history always
passes both checks. -/
theorem factory_equals_new_selector_append :
    (∀ v, cssSelectorBuilder.element v = Selector.new.element v) ∧
    (∀ v, cssSelectorBuilder.id v = Selector.new.id v) ∧
    (∀ v, cssSelectorBuilder.«class» v = Selector.new.«class» v) ∧
    (∀ v, cssSelectorBuilder.attr v = Selector.new.attr v) ∧
    (∀ v, cssSelectorBuilder.pseudoClass v = Selector.new.pseudoClass v) ∧
    (∀ v, cssSelectorBuilder.pseudoElement v = Selector.new.pseudoElement v) ∧
    (∀ (k : PartKind) (v : String), (Selector.new.append k v).1 = none) :=
  ⟨fun _ => rfl, fun _ => rfl, fun _ => rfl, fun _ => rfl, fun _ => rfl,
    fun _ => rfl, fun k _ => by cases k <;> rfl⟩

/-- C9: when one append violates both checks — a single-shot kind already in
the history whose rank is also below the last appended rank — the rank check
fires first and the call fails with `OrderViolation`. -/
theorem order_check_precedes_duplicate_check (s : Selector) (k : PartKind)
    (v : String) (h1 : k ∈ singlePartKinds) (h2 : k ∈ s.order)
    (h3 : rank k < s.lastIndex) :
    (s.append k v).1 = some SelError.OrderViolation := by
  rw [Selector.append_fst]
  unfold Selector.checkOrder
  rw [if_pos h3]

/-- Witness for C9: after `element('a'); id('b'); class('c')`, re-appending
`element` violates both checks and fails with `OrderViolation`. -/
theorem order_check_precedes_duplicate_check_witness :
    (PartKind.element ∈ singlePartKinds ∧
      PartKind.element
        ∈ ((((cssSelectorBuilder.element "a").2.id "b").2.«class» "c").2).order ∧
      rank .element
        < ((((cssSelectorBuilder.element "a").2.id "b").2.«class» "c").2).lastIndex) ∧
    (((((cssSelectorBuilder.element "a").2.id "b").2.«class» "c").2).append
        .element "x").1 = some SelError.OrderViolation :=
  ⟨⟨by decide, by decide, by decide⟩,
    order_check_precedes_duplicate_check _ .element "x" (by decide) (by decide)
      (by decide)⟩

/-- C10: a failed append does not poison the selector: running any further
call sequence on it behaves exactly as running it on the state from before
the failed call, with the same final rendering. -/
theorem failed_append_not_poisoning (s : Selector) (k : PartKind) (v : String)
    (h : ((s.append k v).1).isSome) (calls : List Call) :
    runChecked ((s.append k v).2) calls = runChecked s calls ∧
    ((runChecked ((s.append k v).2) calls).2).stringify
      = ((runChecked s calls).2).stringify := by
  obtain ⟨e, he⟩ := Option.isSome_iff_exists.mp h
  rw [Selector.append_fail s k v e he]
  exact ⟨rfl, rfl⟩

/-- Witness for C10: after the failing duplicate `element` append, the chain
`id('b'); class('c')` behaves as if the failure never happened. -/
theorem failed_append_not_poisoning_witness :
    ((((cssSelectorBuilder.element "a").2).append .element "z").1).isSome ∧
    (runChecked ((((cssSelectorBuilder.element "a").2).append .element "z").2)
        [(.id, "b"), (.«class», "c")]
      = runChecked ((cssSelectorBuilder.element "a").2)
          [(.id, "b"), (.«class», "c")] ∧
      ((runChecked ((((cssSelectorBuilder.element "a").2).append .element
            "z").2) [(.id, "b"), (.«class», "c")]).2).stringify
        = ((runChecked ((cssSelectorBuilder.element "a").2)
            [(.id, "b"), (.«class», "c")]).2).stringify) :=
  ⟨by decide,
    failed_append_not_poisoning _ .element "z" (by decide)
      [(.id, "b"), (.«class», "c")]⟩
